import Mathlib

/-
Verification development for the slither-game-server repository.

The repository contains several near-duplicate implementations of the same
room simulation engine:
  * GameLogic  - src/game_logic.js (the "FINAL" game logic: Snake, Game) together
          with the first server loop in src/server.js;
  * SV  - the second game-logic variant embedded in src/server.js
          (Snake with an isDead flag, Snake.checkCollision, Game.update
          returning kill events);
  * U1  - src/unnamed/part_001 (Snake with balance, Snake.killSnake taking
          90 percent, Game.tick, Game.removeSnake).

Embedding conventions, used uniformly below:
  * JS numbers are embedded as exact rationals (ℚ).
  * Math.cos / Math.sin / Math.hypot / Math.random have no computable
    rational counterpart; they are passed in as opaque function parameters
    (cosF, sinF, hyp, supply, rnd).  All control and data flow around them
    is translated directly from the JS source.
  * The one exception is a comparison Math.hypot(dx, dy) < r against a
    radius r: since hypot is the nonnegative real square root, that
    comparison is exactly equivalent to 0 < r ∧ dx^2 + dy^2 < r^2, which is
    how distLtB encodes it (no square roots needed, no approximation).
  * Socket ids are strings in JS; they are embedded as Nat.
  * Colors are carried as plain strings; their random contents are
    irrelevant to every claim, so constructors take them as parameters or
    fill in the empty string.
  * JS objects keyed by socket id (this.players, this.snakes) are embedded
    as lists in insertion order, which is exactly the enumeration order of
    a for..in loop on such objects.
-/

attribute [local semireducible] Rat.add Rat.sub Rat.mul Rat.inv Rat.ofScientific

set_option maxRecDepth 10000

/-- A world-space point, as in the JS object literals with x and y fields. -/
structure Point where
  x : ℚ
  y : ℚ
deriving Repr, DecidableEq

instance : Inhabited Point := ⟨⟨0, 0⟩⟩

/-- Exact embedding of the JS test Math.hypot(p.x - q.x, p.y - q.y) < r.
Math.hypot returns the nonnegative real square root, so for every radius r
the comparison holds iff 0 < r and the squared distance is below r^2. -/
def distLtB (p q : Point) (r : ℚ) : Bool :=
  decide (0 < r) && decide ((p.x - q.x) ^ 2 + (p.y - q.y) ^ 2 < r ^ 2)

/-- SEGMENT_DISTANCE is 5 in every variant of the source. -/
def SEGMENT_DISTANCE : ℚ := 5

/-- WORLD_SIZE is 3000 in every variant of the source. -/
def WORLD_SIZE : ℚ := 3000

/-- One step of the body-relaxation loop shared verbatim by the GameLogic and SV
variants: the follower is pulled toward its leader when their distance
exceeds SEGMENT_DISTANCE.  The distance comes from Math.hypot, passed in as
the opaque parameter hyp. -/
def relaxPair (hyp : ℚ → ℚ → ℚ) (leader follower : Point) : Point :=
  let dx := leader.x - follower.x
  let dy := leader.y - follower.y
  let dist := hyp dx dy
  if SEGMENT_DISTANCE < dist then
    let moveRatio := (dist - SEGMENT_DISTANCE) / dist
    ⟨follower.x + dx * moveRatio, follower.y + dy * moveRatio⟩
  else follower

/-- The JS relaxation loop runs i from body.length-1 down to 1 and updates
body[i] from body[i-1]; in that descending order every leader body[i-1] is
read before the iteration i-1 overwrites it, so each new body[i] depends
only on the OLD body[i-1] and body[i].  That makes the loop a pure pairwise
map, which is how it is written here. -/
def relaxChain (hyp : ℚ → ℚ → ℚ) : List Point → List Point
  | [] => []
  | h :: t => h :: List.zipWith (relaxPair hyp) (h :: t) t

/-- Head advance: head.x += cos(angle) * speed, head.y += sin(angle) * speed,
with cos(angle) and sin(angle) passed in as the already-evaluated rationals
c and s.  An empty body (impossible for a constructed snake) is returned
unchanged. -/
def moveHead (c s speed : ℚ) : List Point → List Point
  | [] => []
  | h :: t => ⟨h.x + c * speed, h.y + s * speed⟩ :: t

/-- Wall test shared by all variants:
head.x < 0 or head.x > WORLD_SIZE or head.y < 0 or head.y > WORLD_SIZE. -/
def hitsWall (p : Point) : Bool :=
  decide (p.x < 0) || decide (WORLD_SIZE < p.x) ||
  decide (p.y < 0) || decide (WORLD_SIZE < p.y)

namespace GameLogic

/-- PLAYER_START_SPEED in src/game_logic.js. -/
def PLAYER_START_SPEED : ℚ := 5 / 2

/-- PLAYER_BOOST_SPEED in src/game_logic.js. -/
def PLAYER_BOOST_SPEED : ℚ := 5

/-- PLAYER_START_SIZE in src/game_logic.js. -/
def PLAYER_START_SIZE : ℚ := 10

/-- PLAYER_MIN_LENGTH in src/game_logic.js. -/
def PLAYER_MIN_LENGTH : Nat := 10

/-- FOOD_COUNT in src/game_logic.js. -/
def FOOD_COUNT : Nat := 250

/-- FOOD_SIZE in src/game_logic.js. -/
def FOOD_SIZE : ℚ := 5

/-- FOOD_VALUE (0.01) in src/game_logic.js. -/
def FOOD_VALUE : ℚ := 1 / 100

/-- BOOST_COST (0.02) in src/game_logic.js. -/
def BOOST_COST : ℚ := 1 / 50

/-- The Snake class of src/game_logic.js. -/
structure Snake where
  id : Nat
  username : String
  balance : ℚ
  size : ℚ
  speed : ℚ
  angle : ℚ
  color : String
  isBoosting : Bool
  body : List Point
deriving Repr, DecidableEq

/-- The Snake constructor of src/game_logic.js: the body length is
PLAYER_MIN_LENGTH + floor(balance / FOOD_VALUE), clamped from below to
PLAYER_MIN_LENGTH, and segment i sits at
startPos - (cos angle, sin angle) * i * SEGMENT_DISTANCE.
The random start position, angle and color are parameters; c and s stand
for cos(angle) and sin(angle). -/
def Snake.new (id : Nat) (username : String) (startBalance : ℚ)
    (angle : ℚ) (color : String) (startPos : Point) (c s : ℚ) : Snake :=
  let l0 : ℤ := (PLAYER_MIN_LENGTH : ℤ) + Rat.floor (startBalance / FOOD_VALUE)
  let length : Nat := if l0 < (PLAYER_MIN_LENGTH : ℤ) then PLAYER_MIN_LENGTH else l0.toNat
  { id := id
    username := username
    balance := startBalance
    size := PLAYER_START_SIZE
    speed := PLAYER_START_SPEED
    angle := angle
    color := color
    isBoosting := false
    body := (List.range length).map (fun i =>
      ⟨startPos.x - c * i * SEGMENT_DISTANCE, startPos.y - s * i * SEGMENT_DISTANCE⟩) }

/-- Step 1 of Snake.update in src/game_logic.js: when boosting with
balance > BOOST_COST, the speed is set to the boost speed, BOOST_COST is
deducted, and the tail segment is popped only while the length exceeds
PLAYER_MIN_LENGTH; otherwise the speed is reset to the start speed. -/
def Snake.boostStep (sn : Snake) : Snake :=
  if sn.isBoosting = true ∧ BOOST_COST < sn.balance then
    { sn with
      speed := PLAYER_BOOST_SPEED
      balance := sn.balance - BOOST_COST
      body := if PLAYER_MIN_LENGTH < sn.body.length then sn.body.dropLast else sn.body }
  else
    { sn with speed := PLAYER_START_SPEED }

/-- Snake.update of src/game_logic.js: boost handling, tail-first body
relaxation, head advance along the heading, then the wall check.  The
returned Bool is true exactly when the JS method returns the string
'dead'. -/
def Snake.update (hyp : ℚ → ℚ → ℚ) (cosF sinF : ℚ → ℚ) (sn : Snake) : Snake × Bool :=
  let sn1 := sn.boostStep
  let body3 := moveHead (cosF sn1.angle) (sinF sn1.angle) sn1.speed (relaxChain hyp sn1.body)
  ({ sn1 with body := body3 },
   match body3 with
   | [] => false
   | h :: _ => hitsWall h)

/-- Snake.grow of src/game_logic.js: push a copy of the last body segment.
On an empty body the JS code would push a junk object; that case is
unreachable for constructed snakes and is embedded as a no-op. -/
def Snake.grow (sn : Snake) : Snake :=
  match sn.body.getLast? with
  | some p => { sn with body := sn.body ++ [p] }
  | none => sn

/-- Effect on the snake of eating one pellet in the food loop of
Game.update: player.grow(); player.balance += FOOD_VALUE. -/
def Snake.eatOne (sn : Snake) : Snake :=
  { sn.grow with balance := sn.grow.balance + FOOD_VALUE }

/-- Eating n pellets in sequence. -/
def Snake.eatN : Nat → Snake → Snake
  | 0, sn => sn
  | n + 1, sn => Snake.eatN n sn.eatOne

/-- A food pellet of src/game_logic.js (color dropped from spawn randomness;
it never affects behaviour). -/
structure Food where
  x : ℚ
  y : ℚ
  size : ℚ
  color : String
deriving Repr, DecidableEq

/-- Game.spawnFood at a given position: push a pellet of size FOOD_SIZE
there. -/
def spawnFoodAt (p : Point) : Food :=
  { x := p.x, y := p.y, size := FOOD_SIZE, color := "" }

/-- The Game class of src/game_logic.js.  The players object is embedded as
a list in insertion order; roomId and lastUpdateTime are omitted
(deltaTime is computed by Game.update but never used). -/
structure Game where
  players : List Snake
  food : List Food
deriving Repr, DecidableEq

/-- Lookup this.players[id]. -/
def findById (id : Nat) (l : List Snake) : Option Snake :=
  l.find? (fun p => p.id == id)

/-- In-place mutation of the snake stored under id. -/
def setById (id : Nat) (sn : Snake) (l : List Snake) : List Snake :=
  l.map (fun p => if p.id == id then sn else p)

/-- otherPlayer.balance += amt for the snake stored under id. -/
def creditById (id : Nat) (amt : ℚ) (l : List Snake) : List Snake :=
  l.map (fun p => if p.id == id then { p with balance := p.balance + amt } else p)

/-- delete this.players[id]. -/
def eraseById (id : Nat) (l : List Snake) : List Snake :=
  l.filter (fun p => p.id != id)

/-- The food-overlap test of the food loop in Game.update:
getDistance(player.head, f) < player.size + f.size. -/
def foodHit (head : Point) (psize : ℚ) (f : Food) : Bool :=
  distLtB head ⟨f.x, f.y⟩ (psize + f.size)

/-- The food loop of Game.update for one player.  The JS loop scans the
array downward, splices out every overlapping pellet and pushes one freshly
spawned pellet per eaten one at the end of the array (pushed pellets live
past the scan index, so they are never re-checked in the same pass).  The
head is unchanged during the pass, so the result is: keep the non-hit
pellets in order and append one replacement per eaten pellet, drawn from the
random-position supply starting at index k.
Returns (new food array, number eaten, next supply index). -/
def foodPass (head : Point) (psize : ℚ) (food : List Food)
    (supply : Nat → Point) (k : Nat) : List Food × Nat × Nat :=
  let eaten := (food.filter (foodHit head psize)).length
  (food.filter (fun f => !(foodHit head psize f))
     ++ (List.range eaten).map (fun j => spawnFoodAt (supply (k + j))),
   eaten, k + eaten)

/-- The inner segment scan of Game.update: the moving player's head against
EVERY segment of the other player (the loop starts at index 0, so the other
player's head is included) with threshold player.size alone. -/
def collideScan (p other : Snake) : Bool :=
  match p.body with
  | [] => false
  | h :: _ => other.body.any (fun seg => distLtB h seg p.size)

/-- The snake-on-snake loop of Game.update for the player under pid: walk
the other ids in insertion order; on the first hit credit that other player
with the mover's balance, push pid onto deadPlayers and stop; after every
non-hit other, stop if pid is already in deadPlayers (this is how a
wall-dead player still gets one collision check).  Self is skipped. -/
def collideLoop (pid : Nat) (p : Snake) (ids : List Nat)
    (players : List Snake) (dead : List Nat) : List Snake × List Nat :=
  match ids with
  | [] => (players, dead)
  | oid :: rest =>
    if oid == pid then collideLoop pid p rest players dead
    else
      match findById oid players with
      | none => collideLoop pid p rest players dead
      | some other =>
        if collideScan p other then
          (creditById oid p.balance players, dead ++ [pid])
        else if dead.contains pid then (players, dead)
        else collideLoop pid p rest players dead

/-- One iteration of the phase-2 loop of Game.update (food collision, then
snake-on-snake collision) for the player under pid.  State:
(players, food, supply index, deadPlayers). -/
def phase2Step (supply : Nat → Point)
    (st : List Snake × List Food × Nat × List Nat) (pid : Nat) :
    List Snake × List Food × Nat × List Nat :=
  let players := st.1
  let food := st.2.1
  let k := st.2.2.1
  let dead := st.2.2.2
  match findById pid players with
  | none => st
  | some p =>
    match p.body with
    | [] => st
    | h :: _ =>
      let fp := foodPass h p.size food supply k
      let p1 := Snake.eatN fp.2.1 p
      let players1 := setById pid p1 players
      let cl := collideLoop pid p1 (players1.map (fun q => q.id)) players1 dead
      (cl.1, fp.1, fp.2.2, cl.2)

/-- Phase 1 of Game.update: run Snake.update on every player and collect
the ids of those that returned 'dead' (wall deaths), in iteration order. -/
def phase1 (hyp : ℚ → ℚ → ℚ) (cosF sinF : ℚ → ℚ) (players : List Snake) :
    List Snake × List Nat :=
  let upd := players.map (fun p => (p.id, Snake.update hyp cosF sinF p))
  (upd.map (fun x => x.2.1),
   upd.filterMap (fun x => if x.2.2 then some x.1 else none))

/-- One iteration of the phase-3 loop of Game.update for a dead id: drop
one food pellet at each of the dead player's body segments
(foodToDrop = deadPlayer.length, pellet i at deadPlayer.body[i]), then
remove the player only if its socket is still present (the JS code removes
the player inside an `if (socket)` guard); socks lists the ids with a live
socket.  A duplicate dead id finds no player and is skipped. -/
def phase3Step (socks : List Nat) (st : List Snake × List Food) (did : Nat) :
    List Snake × List Food :=
  match findById did st.1 with
  | none => st
  | some dp =>
    (if socks.contains did then eraseById did st.1 else st.1,
     st.2 ++ dp.body.map spawnFoodAt)

/-- Game.update of src/game_logic.js, with the internal deadPlayers list
exposed as the second component.  The JS method itself has no return
statement (it returns undefined), which is why the server loop that does
`for (const event of game.update())` cannot work; the pair returned here is
the embedded final state plus the internal deadPlayers list. -/
def Game.updateFull (hyp : ℚ → ℚ → ℚ) (cosF sinF : ℚ → ℚ)
    (supply : Nat → Point) (socks : List Nat) (g : Game) : Game × List Nat :=
  let pr := phase1 hyp cosF sinF g.players
  let ids := pr.1.map (fun p => p.id)
  let st := ids.foldl (phase2Step supply) (pr.1, g.food, 0, pr.2)
  let fin := st.2.2.2.foldl (phase3Step socks) (st.1, st.2.1)
  ({ players := fin.1, food := fin.2 }, st.2.2.2)

/-- Game.removePlayer of src/game_logic.js: read the player, delete it from
the map, return it.  Nothing else changes; in particular no food is
dropped and the balance is untouched. -/
def Game.removePlayer (id : Nat) (g : Game) : Game × Option Snake :=
  ({ g with players := eraseById id g.players }, findById id g.players)

/-- The Game constructor of src/game_logic.js: no players and FOOD_COUNT
pellets spawned at random positions (taken from the supply). -/
def Game.new (supply : Nat → Point) : Game :=
  { players := [], food := (List.range FOOD_COUNT).map (fun i => spawnFoodAt (supply i)) }

/-- Game.addPlayer: store the freshly constructed snake under its id. -/
def Game.addPlayer (sn : Snake) (g : Game) : Game :=
  { g with players := g.players ++ [sn] }

end GameLogic

namespace SV

/-- PLAYER_START_SPEED in the server.js game-logic variant. -/
def PLAYER_START_SPEED : ℚ := 5 / 2

/-- PLAYER_BOOST_SPEED in the server.js game-logic variant. -/
def PLAYER_BOOST_SPEED : ℚ := 4

/-- MIN_PLAYER_LENGTH in the server.js game-logic variant. -/
def MIN_PLAYER_LENGTH : Nat := 10

/-- FOOD_COUNT in the server.js game-logic variant. -/
def FOOD_COUNT : Nat := 250

/-- FOOD_SIZE in the server.js game-logic variant. -/
def FOOD_SIZE : ℚ := 5

/-- PLAYER_RADIUS in the server.js game-logic variant. -/
def PLAYER_RADIUS : ℚ := 10

/-- BOOST_SHRINK_RATE in the server.js game-logic variant. -/
def BOOST_SHRINK_RATE : Nat := 10

/-- The Snake class of the server.js game-logic variant. -/
structure Snake where
  id : Nat
  name : String
  x : ℚ
  y : ℚ
  size : ℚ
  speed : ℚ
  angle : ℚ
  body : List Point
  color : String
  isBoosting : Bool
  boostCounter : Nat
  isDead : Bool
  initialBalance : ℚ
deriving Repr, DecidableEq

/-- Snake.update of the server.js variant: a dead snake is untouched; while
boosting above MIN_PLAYER_LENGTH the speed is the boost speed and the tail
is popped once every BOOST_SHRINK_RATE ticks; then relaxation, head advance
and the wall check, which sets isDead. -/
def Snake.update (hyp : ℚ → ℚ → ℚ) (cosF sinF : ℚ → ℚ) (sn : Snake) : Snake :=
  if sn.isDead then sn
  else
    let sn1 :=
      if sn.isBoosting = true ∧ MIN_PLAYER_LENGTH < sn.body.length then
        let bc := sn.boostCounter + 1
        if BOOST_SHRINK_RATE ≤ bc then
          { sn with speed := PLAYER_BOOST_SPEED, body := sn.body.dropLast, boostCounter := 0 }
        else
          { sn with speed := PLAYER_BOOST_SPEED, boostCounter := bc }
      else { sn with speed := PLAYER_START_SPEED, boostCounter := 0 }
    let body2 := relaxChain hyp sn1.body
    let body3 := moveHead (cosF sn1.angle) (sinF sn1.angle) sn1.speed body2
    let dead :=
      match body3 with
      | [] => false
      | h :: _ => hitsWall h
    { sn1 with body := body3, isDead := dead }

/-- Snake.grow of the server.js variant: push a copy of the last segment. -/
def Snake.grow (sn : Snake) : Snake :=
  match sn.body.getLast? with
  | some p => { sn with body := sn.body ++ [p] }
  | none => sn

/-- Growing n times in sequence (one grow per pellet eaten). -/
def Snake.growN : Nat → Snake → Snake
  | 0, sn => sn
  | n + 1, sn => Snake.growN n sn.grow

/-- Snake.checkCollision of the server.js variant: false immediately when
either snake is dead or the target is this snake itself; otherwise this
snake's head is tested against every segment of the target EXCEPT the
target's head (the loop starts at i = 1) with threshold
this.size + targetSnake.size; on a hit this snake is marked dead and true
is returned. -/
def Snake.checkCollision (sn targetSnake : Snake) : Snake × Bool :=
  if sn.isDead = true ∨ targetSnake.isDead = true ∨ sn.id = targetSnake.id then (sn, false)
  else
    match sn.body with
    | [] => (sn, false)
    | h :: _ =>
      if (targetSnake.body.drop 1).any
          (fun seg => distLtB h seg (sn.size + targetSnake.size)) then
        ({ sn with isDead := true }, true)
      else (sn, false)

/-- The Food class of the server.js variant; its random position and color
come from the supply parameter where one is constructed. -/
structure Food where
  x : ℚ
  y : ℚ
  color : String
  size : ℚ
deriving Repr, DecidableEq

/-- A kill event as pushed by Game.update of the server.js variant: only
killerId and victimId, no transferred amount. -/
structure KillEvent where
  killerId : Nat
  victimId : Nat
deriving Repr, DecidableEq

/-- The Game class of the server.js variant. -/
structure Game where
  snakes : List Snake
  food : List Food
deriving Repr, DecidableEq

/-- Lookup this.snakes[id]. -/
def findById (id : Nat) (l : List Snake) : Option Snake :=
  l.find? (fun p => p.id == id)

/-- In-place mutation of the snake stored under id. -/
def setById (id : Nat) (sn : Snake) (l : List Snake) : List Snake :=
  l.map (fun p => if p.id == id then sn else p)

/-- delete this.snakes[id]. -/
def eraseById (id : Nat) (l : List Snake) : List Snake :=
  l.filter (fun p => p.id != id)

/-- Every second element of a list, starting at index 0 (the JS loop
`for (let i = 0; i < body.length; i += 2)`). -/
def everySecond : List Point → List Point
  | [] => []
  | [a] => [a]
  | a :: _ :: rest => a :: everySecond rest

/-- Game.createFoodFromSnake of the server.js variant: drop one pellet per
two body segments; each pellet is a fresh random Food (from foodSupply at
index kf+j) whose position is overwritten with the segment position plus a
random offset in (-5, 5) (from rnd at index kr+j).
Returns (new food array, next foodSupply index, next rnd index). -/
def createFoodFromSnake (foodSupply : Nat → Food) (rnd : Nat → ℚ × ℚ) (kf kr : Nat)
    (sn : Snake) (food : List Food) : List Food × Nat × Nat :=
  let pts := everySecond sn.body
  (food ++ (List.range pts.length).map (fun j =>
      { foodSupply (kf + j) with
          x := (pts.getD j default).x + (rnd (kr + j)).1
          y := (pts.getD j default).y + (rnd (kr + j)).2 }),
   kf + pts.length, kr + pts.length)

/-- One iteration of the snake-on-snake loop of Game.update of the
server.js variant for the snake sn (already past its food pass): walk all
ids in order (self and dead targets are rejected inside checkCollision);
on the first hit, store the now-dead sn, drop its food, record the kill
event with the other snake as killer, and stop. -/
def collideFrom (foodSupply : Nat → Food) (rnd : Nat → ℚ × ℚ) (pid : Nat) (sn : Snake)
    (ids : List Nat) (snakes : List Snake) (food : List Food) (kf kr : Nat)
    (events : List KillEvent) :
    List Snake × List Food × Nat × Nat × List KillEvent :=
  match ids with
  | [] => (snakes, food, kf, kr, events)
  | oid :: rest =>
    match findById oid snakes with
    | none => collideFrom foodSupply rnd pid sn rest snakes food kf kr events
    | some other =>
      let r := Snake.checkCollision sn other
      if r.2 then
        (setById pid r.1 snakes,
         (createFoodFromSnake foodSupply rnd kf kr r.1 food).1,
         (createFoodFromSnake foodSupply rnd kf kr r.1 food).2.1,
         (createFoodFromSnake foodSupply rnd kf kr r.1 food).2.2,
         events ++ [⟨other.id, sn.id⟩])
      else
        collideFrom foodSupply rnd pid sn rest snakes food kf kr events

/-- One iteration of the phase-2 loop of Game.update of the server.js
variant for the id pid: skip missing or dead snakes; otherwise eat every
overlapping pellet (splice it out, grow, push a fresh random Food), then
run the snake-on-snake loop.  State:
(snakes, food, foodSupply index, rnd index, killEvents). -/
def phase2Step (foodSupply : Nat → Food) (rnd : Nat → ℚ × ℚ) (ids : List Nat)
    (st : List Snake × List Food × Nat × Nat × List KillEvent) (pid : Nat) :
    List Snake × List Food × Nat × Nat × List KillEvent :=
  let snakes := st.1
  let food := st.2.1
  let kf := st.2.2.1
  let kr := st.2.2.2.1
  let events := st.2.2.2.2
  match findById pid snakes with
  | none => st
  | some sn =>
    if sn.isDead then st
    else
      match sn.body with
      | [] => st
      | h :: _ =>
        let eaten := (food.filter (fun f => distLtB h ⟨f.x, f.y⟩ (sn.size + f.size))).length
        let food1 := food.filter (fun f => !(distLtB h ⟨f.x, f.y⟩ (sn.size + f.size)))
          ++ (List.range eaten).map (fun j => foodSupply (kf + j))
        let sn1 := Snake.growN eaten sn
        let snakes1 := setById pid sn1 snakes
        collideFrom foodSupply rnd pid sn1 ids snakes1 food1 (kf + eaten) kr events

/-- Game.update of the server.js variant: clear killEvents, move every
snake (wall deaths set isDead), then for every still-alive snake run the
food pass and the snake-on-snake pass, and return the kill events.  Wall
deaths produce NO kill event and no event carries an amount. -/
def Game.update (hyp : ℚ → ℚ → ℚ) (cosF sinF : ℚ → ℚ)
    (foodSupply : Nat → Food) (rnd : Nat → ℚ × ℚ) (g : Game) : Game × List KillEvent :=
  let snakes1 := g.snakes.map (Snake.update hyp cosF sinF)
  let ids := snakes1.map (fun s => s.id)
  let st := ids.foldl (phase2Step foodSupply rnd ids) (snakes1, g.food, 0, 0, [])
  ({ snakes := st.1, food := st.2.1 }, st.2.2.2.2)

/-- Game.removePlayer of the server.js variant: when the player exists,
turn its body into food (createFoodFromSnake) and delete it.  The JS
method returns undefined: nothing (in particular no balance) is handed
back to the caller. -/
def Game.removePlayer (foodSupply : Nat → Food) (rnd : Nat → ℚ × ℚ)
    (id : Nat) (g : Game) : Game :=
  match findById id g.snakes with
  | some sn =>
    { snakes := eraseById id g.snakes,
      food := (createFoodFromSnake foodSupply rnd 0 0 sn g.food).1 }
  | none => g

end SV

namespace U1

/-- MIN_PLAYER_LENGTH in src/unnamed/part_001. -/
def MIN_PLAYER_LENGTH : Nat := 10

/-- PLAYER_BOOST_COST in src/unnamed/part_001. -/
def PLAYER_BOOST_COST : ℚ := 1

/-- PLAYER_START_LENGTH in src/unnamed/part_001. -/
def PLAYER_START_LENGTH : Nat := 15

/-- FOOD_SIZE in src/unnamed/part_001. -/
def FOOD_SIZE : ℚ := 5

/-- SNAKE_SIZE in src/unnamed/part_001. -/
def SNAKE_SIZE : ℚ := 12

/-- The Food class of src/unnamed/part_001 (random position, color and id
come from the supply where one is constructed). -/
structure Food where
  x : ℚ
  y : ℚ
  size : ℚ
  color : String
  id : Nat
deriving Repr, DecidableEq

/-- The Snake class of src/unnamed/part_001. -/
structure Snake where
  id : Nat
  username : String
  x : ℚ
  y : ℚ
  size : ℚ
  speed : ℚ
  angle : ℚ
  targetAngle : ℚ
  body : List Point
  color : String
  isBoosting : Bool
  balance : ℚ
deriving Repr, DecidableEq

/-- Snake.killSnake of src/unnamed/part_001: the killer gains
Math.floor(victim.balance * 0.90) - ninety percent of the victim's
balance, rounded down.  Nothing else changes; in particular the victim's
balance is not zeroed here. -/
def Snake.killSnake (sn otherSnake : Snake) : Snake :=
  { sn with balance := sn.balance + ((Rat.floor (otherSnake.balance * (9 / 10)) : ℤ) : ℚ) }

/-- Snake.eatFood of src/unnamed/part_001: one pellet is worth one unit of
balance. -/
def Snake.eatFood (sn : Snake) : Snake :=
  { sn with balance := sn.balance + 1 }

/-- The descending food scan of Snake.checkFoodCollision: the JS loop runs
i from foodList.length-1 down to 0 and splices out and returns the FIRST
overlapping pellet it meets, i.e. the overlapping pellet with the highest
index.  This recursion scans the tail (higher indices) first. -/
def cfcScan (head : Point) (size : ℚ) : List Food → Option Food × List Food
  | [] => (none, [])
  | f :: rest =>
    let r := cfcScan head size rest
    match r.1 with
    | some eaten => (some eaten, f :: r.2)
    | none =>
      if distLtB head ⟨f.x, f.y⟩ (size + f.size) then (some f, rest)
      else (none, f :: rest)

/-- Snake.checkFoodCollision of src/unnamed/part_001: remove and return at
most one pellet (the overlapping one with the highest index), or none. -/
def Snake.checkFoodCollision (sn : Snake) (foodList : List Food) :
    Option Food × List Food :=
  cfcScan sn.body.headI sn.size foodList

/-- Snake.checkSnakeCollision of src/unnamed/part_001: this snake's head
against every segment of the other snake except the other's head
(loop from i = 1), with threshold this.size alone. -/
def Snake.checkSnakeCollision (sn otherSnake : Snake) : Bool :=
  match sn.body with
  | [] => false
  | h :: _ => (otherSnake.body.drop 1).any (fun seg => distLtB h seg sn.size)

/-- The Game class of src/unnamed/part_001. -/
structure Game where
  snakes : List Snake
  food : List Food
deriving Repr, DecidableEq

/-- Lookup this.snakes[id]. -/
def findById (id : Nat) (l : List Snake) : Option Snake :=
  l.find? (fun p => p.id == id)

/-- delete this.snakes[id]. -/
def eraseById (id : Nat) (l : List Snake) : List Snake :=
  l.filter (fun p => p.id != id)

/-- Clamp a coordinate into the world: Math.max(0, Math.min(WORLD_SIZE, v)). -/
def clampW (v : ℚ) : ℚ := max 0 (min WORLD_SIZE v)

/-- Game.dropFood of src/unnamed/part_001: drop floor(balance / 2) fresh
random pellets (from foodSupply), each scattered around the snake's head by
a random offset scaled by the body length (randoms from rnd) and clamped to
the world.  Returns (new food array, next supply index). -/
def dropFood (foodSupply : Nat → Food) (rnd : Nat → ℚ × ℚ) (k : Nat)
    (sn : Snake) (food : List Food) : List Food × Nat :=
  let foodToDrop : Nat := (Rat.floor (sn.balance / 2)).toNat
  (food ++ (List.range foodToDrop).map (fun i =>
     { foodSupply (k + i) with
         x := clampW (sn.x + ((rnd (k + i)).1 - 1 / 2) * (sn.body.length : ℚ) * (1 / 2))
         y := clampW (sn.y + ((rnd (k + i)).2 - 1 / 2) * (sn.body.length : ℚ) * (1 / 2)) }),
   k + foodToDrop)

/-- Game.removeSnake of src/unnamed/part_001: when the snake exists, drop
its food (Game.dropFood), delete it, and return it - with its balance
untouched.  Returns (new game, removed snake or none, next supply index). -/
def Game.removeSnake (foodSupply : Nat → Food) (rnd : Nat → ℚ × ℚ) (k : Nat)
    (sid : Nat) (g : Game) : Game × Option Snake × Nat :=
  match findById sid g.snakes with
  | some sn =>
    ({ snakes := eraseById sid g.snakes, food := (dropFood foodSupply rnd k sn g.food).1 },
     some sn, (dropFood foodSupply rnd k sn g.food).2)
  | none => (g, none, k)

end U1

namespace GameLogic

/-- Predicate for the balance non-negativity invariant: every stored
player's balance is nonnegative. -/
abbrev BalancesNonneg (l : List Snake) : Prop := ∀ p ∈ l, 0 ≤ p.balance

/-- Predicate for the minimum-length invariant: every stored player's body
has at least PLAYER_MIN_LENGTH segments. -/
abbrev LengthsAtLeastMin (l : List Snake) : Prop :=
  ∀ p ∈ l, PLAYER_MIN_LENGTH ≤ p.body.length

/-- Environment of one tick: the opaque stand-ins for Math.hypot, Math.cos,
Math.sin, the random spawn positions, and the set of ids with a live
socket. -/
structure TickEnv where
  hyp : ℚ → ℚ → ℚ
  cosF : ℚ → ℚ
  sinF : ℚ → ℚ
  supply : Nat → Point
  socks : List Nat

/-- Running a sequence of ticks of Game.update, each under its own
environment. -/
def Game.runTicks : List TickEnv → Game → Game
  | [], g => g
  | e :: rest, g => Game.runTicks rest (Game.updateFull e.hyp e.cosF e.sinF e.supply e.socks g).1

end GameLogic

/-- Modelled from the spec: the cross-snake collision predicate of section
4.1 / claim C5, stated for the server.js variant's data - the moving
snake's head is within the sum of both radii of some body segment of the
other snake OTHER THAN the other snake's head segment (index 0), the two
snakes are distinct, and neither is dead.  The radius-sum comparison is
spelled with squared distances exactly as distLtB spells
Math.hypot(dx, dy) < r. -/
abbrev specCollisionPredicate (sn target : SV.Snake) : Prop :=
  sn.isDead = false ∧ target.isDead = false ∧ sn.id ≠ target.id ∧
  0 < sn.size + target.size ∧
  ∃ seg ∈ target.body.drop 1,
    (sn.body.headI.x - seg.x) ^ 2 + (sn.body.headI.y - seg.y) ^ 2
      < (sn.size + target.size) ^ 2

/-- Stand-in for Math.hypot evaluating to 0 everywhere (legal: the theorems
hold for every stand-in). -/
def hyp0 : ℚ → ℚ → ℚ := fun _ _ => 0

/-- Stand-in for a trigonometric function evaluating to 0 everywhere. -/
def trig0 : ℚ → ℚ := fun _ => 0

/-- Stand-in for a trigonometric function evaluating to 1 everywhere. -/
def trig1 : ℚ → ℚ := fun _ => 1

/-- Stand-in for a trigonometric function returning its argument (used to
give two snakes with angles 0 and 1 the cosines 0 and 1). -/
def trigId : ℚ → ℚ := fun a => a

/-- Random-position supply placing everything at the origin. -/
def sup0 : Nat → Point := fun _ => ⟨0, 0⟩

/-- Random-food supply for the server.js variant. -/
def fsupSV : Nat → SV.Food := fun _ => { x := 0, y := 0, color := "", size := SV.FOOD_SIZE }

/-- Random-food supply for the part_001 variant. -/
def fsupU1 : Nat → U1.Food := fun _ => { x := 0, y := 0, size := U1.FOOD_SIZE, color := "", id := 0 }

/-- Random-offset supply evaluating to (0, 0) everywhere. -/
def rnd0 : Nat → ℚ × ℚ := fun _ => (0, 0)

/-- Concrete part_001 killer with balance 0. -/
def snakeKiller : U1.Snake :=
  { id := 1, username := "k", x := 0, y := 0, size := U1.SNAKE_SIZE, speed := 3,
    angle := 0, targetAngle := 0, body := [⟨0, 0⟩], color := "", isBoosting := false,
    balance := 0 }

/-- Concrete part_001 victim with balance 10. -/
def snakeVictim : U1.Snake :=
  { id := 2, username := "v", x := 50, y := 0, size := U1.SNAKE_SIZE, speed := 3,
    angle := 0, targetAngle := 0, body := [⟨50, 0⟩], color := "", isBoosting := false,
    balance := 10 }

/-- Concrete game_logic.js player about to leave (constructed by the Snake
constructor with entry fee 1, giving a 110-segment body). -/
def glLeaver : GameLogic.Snake :=
  GameLogic.Snake.new 1 "p" 1 0 "" ⟨1500, 1500⟩ 1 0

/-- Concrete game_logic.js room holding only glLeaver and one pellet. -/
def glGameLeave : GameLogic.Game :=
  { players := [glLeaver], food := [GameLogic.spawnFoodAt ⟨10, 10⟩] }

/-- Concrete part_001 player about to leave, with balance 7. -/
def u1Leaver : U1.Snake :=
  { id := 3, username := "l", x := 100, y := 100, size := U1.SNAKE_SIZE, speed := 3,
    angle := 0, targetAngle := 0, body := [⟨100, 100⟩, ⟨95, 100⟩], color := "",
    isBoosting := false, balance := 7 }

/-- Concrete part_001 room holding only u1Leaver. -/
def u1GameLeave : U1.Game := { snakes := [u1Leaver], food := [] }

/-- Concrete server.js-variant snake one head-advance away from the wall
(head at x = 2999, moving with cosine 1 at speed 5/2). -/
def svWallSnake : SV.Snake :=
  { id := 1, name := "w", x := 2999, y := 100, size := SV.PLAYER_RADIUS,
    speed := SV.PLAYER_START_SPEED, angle := 0,
    body := [⟨2999, 100⟩, ⟨2994, 100⟩, ⟨2989, 100⟩], color := "",
    isBoosting := false, boostCounter := 0, isDead := false, initialBalance := 1 }

/-- Concrete server.js-variant room holding only svWallSnake. -/
def svGameWall : SV.Game := { snakes := [svWallSnake], food := [] }

/-- Concrete server.js-variant mover for the collision-predicate witness. -/
def svColA : SV.Snake :=
  { id := 1, name := "a", x := 0, y := 0, size := SV.PLAYER_RADIUS,
    speed := SV.PLAYER_START_SPEED, angle := 0, body := [⟨0, 0⟩, ⟨-5, 0⟩],
    color := "", isBoosting := false, boostCounter := 0, isDead := false,
    initialBalance := 1 }

/-- Concrete server.js-variant target whose head is far away but whose
segment at index 1 is 15 away from svColA's head: inside the combined
radius 20, outside the single radius 10. -/
def svColB : SV.Snake :=
  { id := 2, name := "b", x := 100, y := 100, size := SV.PLAYER_RADIUS,
    speed := SV.PLAYER_START_SPEED, angle := 0, body := [⟨100, 100⟩, ⟨15, 0⟩],
    color := "", isBoosting := false, boostCounter := 0, isDead := false,
    initialBalance := 1 }

/-- svColB marked dead, for the corpse-cannot-kill witness. -/
def svColBDead : SV.Snake := { svColB with isDead := true }

/-- Concrete game_logic.js mover matching svColA (single-segment body at
the origin). -/
def glColA : GameLogic.Snake :=
  { id := 1, username := "a", balance := 0, size := GameLogic.PLAYER_START_SIZE,
    speed := GameLogic.PLAYER_START_SPEED, angle := 0, color := "",
    isBoosting := false, body := [⟨0, 0⟩] }

/-- Concrete game_logic.js other snake matching svColB: head far away,
segment index 1 at distance 15 from glColA's head. -/
def glColB : GameLogic.Snake :=
  { id := 2, username := "b", balance := 0, size := GameLogic.PLAYER_START_SIZE,
    speed := GameLogic.PLAYER_START_SPEED, angle := 0, color := "",
    isBoosting := false, body := [⟨100, 100⟩, ⟨15, 0⟩] }

/-- Concrete game_logic.js room for the collision-predicate counterexample. -/
def glGameCollide : GameLogic.Game := { players := [glColA, glColB], food := [] }

/-- Concrete game_logic.js live snake whose head rests on the body of
glCorpse (5 away from glCorpse's segment at (2994, 500)). -/
def glVictimLive : GameLogic.Snake :=
  { id := 1, username := "live", balance := 7, size := GameLogic.PLAYER_START_SIZE,
    speed := GameLogic.PLAYER_START_SPEED, angle := 0, color := "",
    isBoosting := false, body := [⟨2989, 495⟩] }

/-- Concrete game_logic.js snake that dies on the wall this tick (angle 1
so that trigId gives it cosine 1; head 2999 -> 3001.5). -/
def glCorpse : GameLogic.Snake :=
  { id := 2, username := "corpse", balance := 3, size := GameLogic.PLAYER_START_SIZE,
    speed := GameLogic.PLAYER_START_SPEED, angle := 1, color := "",
    isBoosting := false, body := [⟨2999, 500⟩, ⟨2994, 500⟩, ⟨2989, 500⟩] }

/-- Concrete game_logic.js room for the corpse-kills counterexample. -/
def glGameCorpse : GameLogic.Game := { players := [glVictimLive, glCorpse], food := [] }

/-- Concrete game_logic.js snake sitting on two overlapping pellets. -/
def glEater : GameLogic.Snake :=
  { id := 1, username := "e", balance := 2, size := GameLogic.PLAYER_START_SIZE,
    speed := GameLogic.PLAYER_START_SPEED, angle := 0, color := "",
    isBoosting := false, body := [⟨500, 500⟩] }

/-- Concrete game_logic.js room where glEater's head overlaps two pellets
at once. -/
def glGameTwoPellets : GameLogic.Game :=
  { players := [glEater],
    food := [GameLogic.spawnFoodAt ⟨500, 500⟩, GameLogic.spawnFoodAt ⟨503, 500⟩] }

/-- Concrete game_logic.js snake with a quiet tick ahead: 10 segments,
far from walls and food, not boosting. -/
def glCalm : GameLogic.Snake :=
  { id := 1, username := "c", balance := 1, size := GameLogic.PLAYER_START_SIZE,
    speed := GameLogic.PLAYER_START_SPEED, angle := 0, color := "",
    isBoosting := false,
    body := (List.range 10).map (fun i => ⟨500 - 5 * (i : ℚ), 500⟩) }

/-- Concrete game_logic.js room where nothing dies and nothing is eaten
this tick. -/
def glGameCalm : GameLogic.Game :=
  { players := [glCalm], food := [GameLogic.spawnFoodAt ⟨600, 600⟩] }

/-- Concrete game_logic.js room in its constructed state (FOOD_COUNT
pellets) with one just-added player whose head is one advance from the
wall. -/
def glGameWall : GameLogic.Game :=
  GameLogic.Game.addPlayer (GameLogic.Snake.new 1 "w" 1 0 "" ⟨2999, 100⟩ 1 0)
    (GameLogic.Game.new sup0)

theorem length_filter_split {α : Type} (p : α → Bool) (l : List α) :
    (l.filter p).length + (l.filter (fun a => !(p a))).length = l.length := by
  induction l with
  | nil => rfl
  | cons a t ih =>
    by_cases h : p a = true <;> simp [List.filter_cons, h] <;> omega

theorem relaxChain_length (hyp : ℚ → ℚ → ℚ) (l : List Point) :
    (relaxChain hyp l).length = l.length := by
  cases l with
  | nil => rfl
  | cons h t => simp [relaxChain]

theorem moveHead_length (c s speed : ℚ) (l : List Point) :
    (moveHead c s speed l).length = l.length := by
  cases l <;> rfl

namespace GameLogic

theorem boostStep_balance_nonneg (sn : Snake) (h : 0 ≤ sn.balance) :
    0 ≤ sn.boostStep.balance := by
  by_cases hc : (sn.isBoosting = true ∧ BOOST_COST < sn.balance)
  · have h2 := hc.2
    simp only [Snake.boostStep, if_pos hc]
    unfold BOOST_COST at h2 ⊢
    linarith
  · simpa [Snake.boostStep, if_neg hc]

theorem boostStep_length (sn : Snake) (h : PLAYER_MIN_LENGTH ≤ sn.body.length) :
    PLAYER_MIN_LENGTH ≤ sn.boostStep.body.length := by
  by_cases hc : (sn.isBoosting = true ∧ BOOST_COST < sn.balance)
  · simp only [Snake.boostStep, if_pos hc]
    by_cases hl : PLAYER_MIN_LENGTH < sn.body.length
    · simp only [if_pos hl, List.length_dropLast]; omega
    · simp only [if_neg hl]; exact h
  · simpa [Snake.boostStep, if_neg hc]

theorem update_fst_balance (hyp : ℚ → ℚ → ℚ) (cosF sinF : ℚ → ℚ) (sn : Snake) :
    (Snake.update hyp cosF sinF sn).1.balance = sn.boostStep.balance := rfl

theorem update_fst_length (hyp : ℚ → ℚ → ℚ) (cosF sinF : ℚ → ℚ) (sn : Snake) :
    (Snake.update hyp cosF sinF sn).1.body.length = sn.boostStep.body.length := by
  show (moveHead _ _ _ (relaxChain hyp sn.boostStep.body)).length = _
  rw [moveHead_length, relaxChain_length]

theorem grow_balance (sn : Snake) : sn.grow.balance = sn.balance := by
  unfold Snake.grow
  cases h : sn.body.getLast? <;> rfl

theorem grow_length_ge (sn : Snake) : sn.body.length ≤ sn.grow.body.length := by
  unfold Snake.grow
  cases h : sn.body.getLast? <;> simp

theorem eatOne_balance (sn : Snake) : sn.eatOne.balance = sn.balance + FOOD_VALUE := by
  unfold Snake.eatOne
  rw [grow_balance]

theorem eatOne_length_ge (sn : Snake) : sn.body.length ≤ sn.eatOne.body.length := by
  unfold Snake.eatOne
  exact grow_length_ge sn

theorem eatN_pres (P : Snake → Prop) (heat : ∀ sn, P sn → P sn.eatOne) :
    ∀ (n : Nat) (sn : Snake), P sn → P (Snake.eatN n sn) := by
  intro n
  induction n with
  | zero => intro sn h; exact h
  | succ m ih => intro sn h; exact ih sn.eatOne (heat sn h)

theorem mem_findById {id : Nat} {l : List Snake} {p : Snake}
    (h : findById id l = some p) : p ∈ l :=
  List.mem_of_find?_eq_some h

theorem inv_setById {P : Snake → Prop} {l : List Snake} {q : Snake} {i : Nat}
    (hl : ∀ p ∈ l, P p) (hq : P q) : ∀ p ∈ setById i q l, P p := by
  intro p hp
  simp only [setById, List.mem_map] at hp
  obtain ⟨x, hx, hfx⟩ := hp
  by_cases hc : (x.id == i) = true
  · rw [if_pos hc] at hfx; exact hfx ▸ hq
  · rw [if_neg hc] at hfx; exact hfx ▸ hl x hx

theorem inv_creditById {P : Snake → Prop} {l : List Snake} {i : Nat} {amt : ℚ}
    (hl : ∀ p ∈ l, P p)
    (hcred : ∀ b, P b → P { b with balance := b.balance + amt }) :
    ∀ p ∈ creditById i amt l, P p := by
  intro p hp
  simp only [creditById, List.mem_map] at hp
  obtain ⟨x, hx, hfx⟩ := hp
  by_cases hc : (x.id == i) = true
  · rw [if_pos hc] at hfx; exact hfx ▸ hcred x (hl x hx)
  · rw [if_neg hc] at hfx; exact hfx ▸ hl x hx

theorem inv_eraseById {P : Snake → Prop} {l : List Snake} {i : Nat}
    (hl : ∀ p ∈ l, P p) : ∀ p ∈ eraseById i l, P p := by
  intro p hp
  simp only [eraseById, List.mem_filter] at hp
  exact hl p hp.1

theorem inv_collideLoop {P : Snake → Prop}
    (hcred : ∀ a b, P a → P b → P { b with balance := b.balance + a.balance })
    (pid : Nat) (p : Snake) (hp : P p) :
    ∀ (ids : List Nat) (players : List Snake) (dead : List Nat),
      (∀ x ∈ players, P x) → ∀ x ∈ (collideLoop pid p ids players dead).1, P x := by
  intro ids
  induction ids with
  | nil =>
    intro players dead h
    simpa [collideLoop] using h
  | cons oid rest ih =>
    intro players dead h
    unfold collideLoop
    by_cases h1 : (oid == pid) = true
    · rw [if_pos h1]; exact ih players dead h
    · rw [if_neg h1]
      cases hf : findById oid players with
      | none => exact ih players dead h
      | some other =>
        dsimp only
        by_cases h2 : collideScan p other = true
        · rw [if_pos h2]
          exact inv_creditById h (fun b hb => hcred p b hp hb)
        · rw [if_neg h2]
          by_cases h3 : dead.contains pid = true
          · rw [if_pos h3]; exact h
          · rw [if_neg h3]; exact ih players dead h

theorem inv_phase2Step {P : Snake → Prop}
    (heat : ∀ sn, P sn → P sn.eatOne)
    (hcred : ∀ a b, P a → P b → P { b with balance := b.balance + a.balance })
    (supply : Nat → Point) (st : List Snake × List Food × Nat × List Nat) (pid : Nat)
    (h : ∀ x ∈ st.1, P x) : ∀ x ∈ (phase2Step supply st pid).1, P x := by
  unfold phase2Step
  dsimp only
  cases hf : findById pid st.1 with
  | none => exact h
  | some p =>
    dsimp only
    cases hb : p.body with
    | nil => exact h
    | cons hd t =>
      dsimp only
      have hp : P p := h p (mem_findById hf)
      have hp1 : P (Snake.eatN (foodPass hd p.size st.2.1 supply st.2.2.1).2.1 p) :=
        eatN_pres P heat _ p hp
      exact inv_collideLoop hcred pid _ hp1 _ _ _ (inv_setById h hp1)

theorem inv_phase2Fold {P : Snake → Prop}
    (heat : ∀ sn, P sn → P sn.eatOne)
    (hcred : ∀ a b, P a → P b → P { b with balance := b.balance + a.balance })
    (supply : Nat → Point) :
    ∀ (ids : List Nat) (st : List Snake × List Food × Nat × List Nat),
      (∀ x ∈ st.1, P x) → ∀ x ∈ ((ids.foldl (phase2Step supply) st)).1, P x := by
  intro ids
  induction ids with
  | nil => intro st h; simpa using h
  | cons i rest ih =>
    intro st h
    rw [List.foldl_cons]
    exact ih _ (inv_phase2Step heat hcred supply st i h)

theorem inv_phase3Step {P : Snake → Prop}
    (socks : List Nat) (st : List Snake × List Food) (did : Nat)
    (h : ∀ x ∈ st.1, P x) : ∀ x ∈ (phase3Step socks st did).1, P x := by
  unfold phase3Step
  cases hf : findById did st.1 with
  | none => exact h
  | some dp =>
    dsimp only
    by_cases hs : socks.contains did = true
    · rw [if_pos hs]; exact inv_eraseById h
    · rw [if_neg hs]; exact h

theorem inv_phase3Fold {P : Snake → Prop} (socks : List Nat) :
    ∀ (dead : List Nat) (st : List Snake × List Food),
      (∀ x ∈ st.1, P x) → ∀ x ∈ ((dead.foldl (phase3Step socks) st)).1, P x := by
  intro dead
  induction dead with
  | nil => intro st h; simpa using h
  | cons d rest ih =>
    intro st h
    rw [List.foldl_cons]
    exact ih _ (inv_phase3Step socks st d h)

theorem inv_phase1 {P : Snake → Prop}
    (hupd : ∀ (hyp : ℚ → ℚ → ℚ) (cF sF : ℚ → ℚ) (sn : Snake),
      P sn → P ((Snake.update hyp cF sF sn).1))
    (hyp : ℚ → ℚ → ℚ) (cF sF : ℚ → ℚ) (players : List Snake)
    (h : ∀ x ∈ players, P x) : ∀ x ∈ (phase1 hyp cF sF players).1, P x := by
  intro x hx
  simp only [phase1, List.map_map, List.mem_map] at hx
  obtain ⟨q, hq, rfl⟩ := hx
  exact hupd hyp cF sF q (h q hq)

theorem inv_updateFull {P : Snake → Prop}
    (hupd : ∀ (hyp : ℚ → ℚ → ℚ) (cF sF : ℚ → ℚ) (sn : Snake),
      P sn → P ((Snake.update hyp cF sF sn).1))
    (heat : ∀ sn, P sn → P sn.eatOne)
    (hcred : ∀ a b, P a → P b → P { b with balance := b.balance + a.balance })
    (hyp : ℚ → ℚ → ℚ) (cF sF : ℚ → ℚ) (supply : Nat → Point) (socks : List Nat)
    (g : Game) (h : ∀ x ∈ g.players, P x) :
    ∀ x ∈ ((Game.updateFull hyp cF sF supply socks g).1).players, P x := by
  unfold Game.updateFull
  dsimp only
  exact inv_phase3Fold socks _ _
    (inv_phase2Fold heat hcred supply _ _ (inv_phase1 hupd hyp cF sF _ h))

theorem foodPass_length (head : Point) (psize : ℚ) (food : List Food)
    (supply : Nat → Point) (k : Nat) :
    (foodPass head psize food supply k).1.length = food.length := by
  simp only [foodPass, List.length_append, List.length_map, List.length_range]
  rw [Nat.add_comm]
  exact length_filter_split (foodHit head psize) food

theorem phase2Step_food_length (supply : Nat → Point)
    (st : List Snake × List Food × Nat × List Nat) (pid : Nat) :
    ((phase2Step supply st pid).2.1).length = (st.2.1).length := by
  unfold phase2Step
  dsimp only
  cases hf : findById pid st.1 with
  | none => rfl
  | some p =>
    dsimp only
    cases hb : p.body with
    | nil => rfl
    | cons hd t =>
      dsimp only
      exact foodPass_length hd p.size st.2.1 supply st.2.2.1

theorem phase2Fold_food_length (supply : Nat → Point) :
    ∀ (ids : List Nat) (st : List Snake × List Food × Nat × List Nat),
      ((ids.foldl (phase2Step supply) st).2.1).length = (st.2.1).length := by
  intro ids
  induction ids with
  | nil => intro st; rfl
  | cons i rest ih =>
    intro st
    rw [List.foldl_cons, ih, phase2Step_food_length]

theorem balance_upd (hyp : ℚ → ℚ → ℚ) (cF sF : ℚ → ℚ) (sn : Snake)
    (h : 0 ≤ sn.balance) : 0 ≤ ((Snake.update hyp cF sF sn).1).balance := by
  rw [update_fst_balance]
  exact boostStep_balance_nonneg sn h

theorem balance_eat (sn : Snake) (h : 0 ≤ sn.balance) : 0 ≤ sn.eatOne.balance := by
  rw [eatOne_balance]
  unfold FOOD_VALUE
  linarith

theorem balance_cred (a b : Snake) (ha : 0 ≤ a.balance) (hb : 0 ≤ b.balance) :
    0 ≤ ({ b with balance := b.balance + a.balance } : Snake).balance := by
  show 0 ≤ b.balance + a.balance
  linarith

theorem length_upd (hyp : ℚ → ℚ → ℚ) (cF sF : ℚ → ℚ) (sn : Snake)
    (h : PLAYER_MIN_LENGTH ≤ sn.body.length) :
    PLAYER_MIN_LENGTH ≤ ((Snake.update hyp cF sF sn).1).body.length := by
  rw [update_fst_length]
  exact boostStep_length sn h

theorem length_eat (sn : Snake) (h : PLAYER_MIN_LENGTH ≤ sn.body.length) :
    PLAYER_MIN_LENGTH ≤ sn.eatOne.body.length :=
  le_trans h (eatOne_length_ge sn)

theorem length_cred (a b : Snake) (_ : PLAYER_MIN_LENGTH ≤ a.body.length)
    (hb : PLAYER_MIN_LENGTH ≤ b.body.length) :
    PLAYER_MIN_LENGTH ≤ ({ b with balance := b.balance + a.balance } : Snake).body.length := hb

end GameLogic

theorem cfcScan_at_most_one (head : Point) (size : ℚ) (l : List U1.Food) :
    ((U1.cfcScan head size l).1 = none ∧ (U1.cfcScan head size l).2 = l) ∨
    (∃ f, (U1.cfcScan head size l).1 = some f
          ∧ ((U1.cfcScan head size l).2).length + 1 = l.length) := by
  induction l with
  | nil => left; exact ⟨rfl, rfl⟩
  | cons f rest ih =>
    unfold U1.cfcScan
    dsimp only
    cases hr : (U1.cfcScan head size rest).1 with
    | some eaten =>
      right
      refine ⟨eaten, rfl, ?_⟩
      rcases ih with ⟨h1, _⟩ | ⟨g, _, hg2⟩
      · rw [h1] at hr; cases hr
      · simp only [List.length_cons]; omega
    | none =>
      by_cases hhit : (distLtB head ⟨f.x, f.y⟩ (size + f.size)) = true
      · right; rw [if_pos hhit]; exact ⟨f, rfl, by simp⟩
      · left; rw [if_neg hhit]; exact ⟨rfl, rfl⟩

/-- C1: balance conservation on kill fails in the code.  In the part_001
variant, Snake.killSnake credits the killer with floor(0.9 * victim
balance): with killer balance 0 and victim balance 10 the killer ends at 9,
so even with the victim's balance zeroed (as the claim demands) the sum of
the two balances drops from 10 to 9 - one unit of currency vanishes, and
the transfer is scaled by the 90 percent cut the claim rules out. -/
theorem c1_killSnake_loses_ten_percent :
    (U1.Snake.killSnake snakeKiller snakeVictim).balance = 9
    ∧ snakeKiller.balance + snakeVictim.balance = 10
    ∧ ¬((U1.Snake.killSnake snakeKiller snakeVictim).balance + 0
        = snakeKiller.balance + snakeVictim.balance) := by
  refine ⟨by decide, by decide, by decide⟩

/-- C2 counterexample: in src/game_logic.js, Game.removePlayer on a live
player with a nonempty body returns the player (balance unchanged) but
leaves the food pool exactly as it was - no food is dropped along the
body, contradicting the claim that removePlayer drops food under the
kill-less death policy. -/
theorem c2_gameLogic_removePlayer_drops_no_food :
    (GameLogic.Game.removePlayer 1 glGameLeave).1.food = glGameLeave.food
    ∧ (GameLogic.Game.removePlayer 1 glGameLeave).2 = some glLeaver
    ∧ glLeaver.balance = 1
    ∧ glLeaver.body ≠ [] := by
  refine ⟨by decide, by decide, by decide, by decide⟩

/-- C2 (amended): in the part_001 variant, Game.removeSnake on a present
player drops floor(balance / 2) food pellets, removes the player, and
returns the removed player itself - balance field untouched, not zeroed -
to the caller; the game_logic.js removePlayer also returns the player with
its balance unchanged but drops no food, and the server.js variant drops
food but returns nothing. -/
theorem c2_removeSnake_returns_balance_and_drops_food
    (fs : Nat → U1.Food) (rnd : Nat → ℚ × ℚ) (k sid : Nat)
    (g : U1.Game) (sn : U1.Snake) (h : U1.findById sid g.snakes = some sn) :
    (U1.Game.removeSnake fs rnd k sid g).2.1 = some sn
    ∧ ((U1.Game.removeSnake fs rnd k sid g).1).snakes = U1.eraseById sid g.snakes
    ∧ ((U1.Game.removeSnake fs rnd k sid g).1).food.length
        = g.food.length + (Rat.floor (sn.balance / 2)).toNat := by
  unfold U1.Game.removeSnake
  rw [h]
  refine ⟨rfl, rfl, ?_⟩
  simp [U1.dropFood]

/-- C2 witness: the amended statement evaluated on a concrete room with one
player of balance 7, whose leave drops 3 pellets and hands back the player
with balance still 7. -/
theorem c2_removeSnake_witness :
    U1.findById 3 u1GameLeave.snakes = some u1Leaver
    ∧ ((U1.Game.removeSnake fsupU1 rnd0 0 3 u1GameLeave).2.1 = some u1Leaver
       ∧ ((U1.Game.removeSnake fsupU1 rnd0 0 3 u1GameLeave).1).snakes
           = U1.eraseById 3 u1GameLeave.snakes
       ∧ ((U1.Game.removeSnake fsupU1 rnd0 0 3 u1GameLeave).1).food.length
           = u1GameLeave.food.length + (Rat.floor (u1Leaver.balance / 2)).toNat) :=
  ⟨by decide, c2_removeSnake_returns_balance_and_drops_food fsupU1 rnd0 0 3
      u1GameLeave u1Leaver (by decide)⟩

/-- C3: a tick in which a snake dies on the wall returns a kill-event list
with NO record for that death.  In the server.js variant (the only variant
whose update returns kill events at all - the game_logic.js update has no
return statement), a room whose single snake crosses the wall this tick
ends the tick with the snake marked dead and an empty kill-event list, so
wall deaths are missing from the returned events and no record with
killerId = none is ever produced. -/
theorem c3_wall_death_produces_no_kill_event :
    (SV.Game.update hyp0 trig1 trig0 fsupSV rnd0 svGameWall).2 = []
    ∧ (SV.findById 1 (SV.Game.update hyp0 trig1 trig0 fsupSV rnd0 svGameWall).1.snakes).map
        (fun s => s.isDead) = some true := by
  refine ⟨by decide, by decide⟩

/-- C4: balance non-negativity.  For every sequence of game_logic.js ticks
(each tick freely mixing boost deductions, food credits and kill-transfer
credits) starting from a room whose players all have nonnegative balances,
every player still stored after the run has a nonnegative balance; the
boost deduction is guarded by balance > BOOST_COST and so never drives a
balance below zero. -/
theorem c4_balance_nonneg_invariant (ticks : List GameLogic.TickEnv)
    (g : GameLogic.Game) (h : GameLogic.BalancesNonneg g.players) :
    GameLogic.BalancesNonneg (GameLogic.Game.runTicks ticks g).players := by
  induction ticks generalizing g with
  | nil => exact h
  | cons e rest ih =>
    show GameLogic.BalancesNonneg
      (GameLogic.Game.runTicks rest
        (GameLogic.Game.updateFull e.hyp e.cosF e.sinF e.supply e.socks g).1).players
    exact ih _ (GameLogic.inv_updateFull GameLogic.balance_upd GameLogic.balance_eat
      GameLogic.balance_cred e.hyp e.cosF e.sinF e.supply e.socks g h)

/-- C4 witness: the invariant evaluated over one concrete tick of a
one-player room with balance 1. -/
theorem c4_balance_nonneg_witness :
    GameLogic.BalancesNonneg glGameCalm.players
    ∧ GameLogic.BalancesNonneg
        (GameLogic.Game.runTicks [⟨hyp0, trig0, trig0, sup0, []⟩] glGameCalm).players :=
  ⟨by decide, c4_balance_nonneg_invariant [⟨hyp0, trig0, trig0, sup0, []⟩] glGameCalm (by decide)⟩

/-- C5 (amended): the collision predicate as claimed holds exactly for the
server.js variant's Snake.checkCollision - it reports a collision iff both
snakes are alive, distinct, and the mover's head is within the SUM of both
radii of some segment of the target other than the target's head segment
(index 0); and a snake never collides with itself.  (In the game_logic.js
variant, by contrast, the threshold is the mover's radius alone and the
target's head segment IS tested - see the counterexample.) -/
theorem c5_checkCollision_matches_spec_predicate (sn target : SV.Snake)
    (hne : sn.body ≠ []) :
    ((((SV.Snake.checkCollision sn target).2) = true) ↔ specCollisionPredicate sn target)
    ∧ ((SV.Snake.checkCollision sn sn).2) = false := by
  constructor
  · unfold SV.Snake.checkCollision
    by_cases hguard : (sn.isDead = true ∨ target.isDead = true ∨ sn.id = target.id)
    · rw [if_pos hguard]
      constructor
      · intro hh; exact absurd hh (by simp)
      · rintro ⟨h1, h2, h3, -⟩
        rcases hguard with hg | hg | hg
        · rw [h1] at hg; cases hg
        · rw [h2] at hg; cases hg
        · exact absurd hg h3
    · rw [if_neg hguard]
      push_neg at hguard
      obtain ⟨hd1, hd2, hd3⟩ := hguard
      have hd1f : sn.isDead = false := Bool.eq_false_iff.mpr hd1
      have hd2f : target.isDead = false := Bool.eq_false_iff.mpr hd2
      cases hb : sn.body with
      | nil => exact absurd hb hne
      | cons hd t =>
        dsimp only
        constructor
        · intro hh
          by_cases hany : ((target.body.drop 1).any
              (fun seg => distLtB hd seg (sn.size + target.size))) = true
          · obtain ⟨seg, hseg, hlt⟩ := List.any_eq_true.mp hany
            rw [distLtB, Bool.and_eq_true, decide_eq_true_eq, decide_eq_true_eq] at hlt
            refine ⟨hd1f, hd2f, hd3, hlt.1, seg, hseg, ?_⟩
            rw [hb]
            simpa using hlt.2
          · rw [if_neg hany] at hh; cases hh
        · rintro ⟨-, -, -, hpos, seg, hseg, hlt⟩
          rw [hb] at hlt
          simp only [List.headI] at hlt
          have hany : ((target.body.drop 1).any
              (fun seg => distLtB hd seg (sn.size + target.size))) = true := by
            refine List.any_eq_true.mpr ⟨seg, hseg, ?_⟩
            rw [distLtB, Bool.and_eq_true, decide_eq_true_eq, decide_eq_true_eq]
            exact ⟨hpos, hlt⟩
          rw [if_pos hany]
  · unfold SV.Snake.checkCollision
    rw [if_pos (Or.inr (Or.inr rfl))]

/-- C5 witness: the amended predicate evaluated on two concrete snakes
whose only overlap is the target's index-1 segment at distance 15 (inside
the combined radius 20). -/
theorem c5_checkCollision_witness :
    svColA.body ≠ []
    ∧ (((((SV.Snake.checkCollision svColA svColB).2) = true)
          ↔ specCollisionPredicate svColA svColB)
       ∧ ((SV.Snake.checkCollision svColA svColA).2) = false) :=
  ⟨by decide, c5_checkCollision_matches_spec_predicate svColA svColB (by decide)⟩

/-- C5 counterexample: in src/game_logic.js the claimed predicate is
violated.  glColB's segment at index 1 lies at distance 15 from glColA's
head - within the claimed combined radius 10 + 10 = 20 - yet the tick
marks nobody as colliding (the code compares against the mover's radius 10
alone), so "S is marked as colliding with T exactly when some non-head
segment of T is within the sum of the radii" is false on this input. -/
theorem c5_gameLogic_collision_ignores_combined_radius :
    distLtB glColA.body.headI ⟨15, 0⟩ (glColA.size + glColB.size) = true
    ∧ (⟨15, 0⟩ : Point) ∈ glColB.body.drop 1
    ∧ (GameLogic.Game.updateFull hyp0 trig0 trig0 sup0 [] glGameCollide).2 = []
    ∧ (GameLogic.Game.updateFull hyp0 trig0 trig0 sup0 [] glGameCollide).1.players
        = glGameCollide.players := by
  refine ⟨by decide, by decide, by decide, by decide⟩

/-- C6 (amended): in the server.js variant a corpse cannot kill:
checkCollision against a target already marked dead returns false and
leaves the moving snake untouched, so a live snake touching a dead body is
neither killed nor does it credit the dead snake with a kill event. -/
theorem c6_dead_target_cannot_collide (sn target : SV.Snake)
    (h : target.isDead = true) :
    SV.Snake.checkCollision sn target = (sn, false) := by
  unfold SV.Snake.checkCollision
  rw [if_pos (Or.inr (Or.inl h))]

/-- C6 witness: the amended statement evaluated against a concrete dead
target. -/
theorem c6_dead_target_witness :
    svColBDead.isDead = true
    ∧ SV.Snake.checkCollision svColA svColBDead = (svColA, false) :=
  ⟨by decide, c6_dead_target_cannot_collide svColA svColBDead (by decide)⟩

/-- C6 counterexample: in src/game_logic.js a corpse CAN kill within the
same tick.  Snake 2 dies on the wall in phase 1 (first entry of the dead
list); in phase 2 the live snake 1, whose head rests on snake 2's body, is
still tested against the corpse, gets marked dead (second entry), and the
corpse is credited snake 1's balance (3 + 7 = 10). -/
theorem c6_gameLogic_corpse_kills :
    (GameLogic.Game.updateFull hyp0 trigId trig0 sup0 [] glGameCorpse).2 = [2, 1]
    ∧ (GameLogic.findById 2
        (GameLogic.Game.updateFull hyp0 trigId trig0 sup0 [] glGameCorpse).1.players).map
        (fun s => s.balance) = some 10
    ∧ glVictimLive.balance = 7 ∧ glCorpse.balance = 3 := by
  refine ⟨by decide, by decide, by decide, by decide⟩

/-- C7 (amended): at most one pellet per snake per tick holds for the
part_001 variant: Snake.checkFoodCollision removes either nothing (and
returns the list unchanged) or exactly one pellet - the overlapping pellet
with the highest index, i.e. the first one met by the descending scan.
(The game_logic.js and server.js food loops instead consume EVERY
overlapping pellet in the same tick - see the counterexample.) -/
theorem c7_at_most_one_pellet_u1 (sn : U1.Snake) (l : List U1.Food) :
    (((sn.checkFoodCollision l).1 = none ∧ (sn.checkFoodCollision l).2 = l)) ∨
    (∃ f, (sn.checkFoodCollision l).1 = some f
          ∧ ((sn.checkFoodCollision l).2).length + 1 = l.length) :=
  cfcScan_at_most_one sn.body.headI sn.size l

/-- C7 counterexample: in src/game_logic.js a snake whose head overlaps two
pellets consumes BOTH in a single tick: starting from balance 2 and a
1-segment body it ends the tick with balance 2 + 2 * FOOD_VALUE = 101/50
and a 3-segment body (two grow calls), contradicting at-most-one-pellet-
per-snake-per-tick. -/
theorem c7_gameLogic_two_pellets_consumed :
    glEater.balance = 2 ∧ glEater.body.length = 1
    ∧ glGameTwoPellets.food.length = 2
    ∧ (GameLogic.findById 1
        (GameLogic.Game.updateFull hyp0 trig0 trig0 sup0 [] glGameTwoPellets).1.players).map
        (fun s => s.balance) = some (101 / 50)
    ∧ (GameLogic.findById 1
        (GameLogic.Game.updateFull hyp0 trig0 trig0 sup0 [] glGameTwoPellets).1.players).map
        (fun s => s.body.length) = some 3 := by
  refine ⟨by decide, by decide, by decide, by decide, by decide⟩

/-- C8 (amended): in a game_logic.js tick in which no snake dies, the food
pool size is exactly preserved: every consumption is offset by exactly one
replacement spawn.  (A tick with a death grows the pool - see the
counterexample.) -/
theorem c8_no_death_preserves_food_count (hyp : ℚ → ℚ → ℚ) (cF sF : ℚ → ℚ)
    (supply : Nat → Point) (socks : List Nat) (g : GameLogic.Game)
    (h : (GameLogic.Game.updateFull hyp cF sF supply socks g).2 = []) :
    ((GameLogic.Game.updateFull hyp cF sF supply socks g).1).food.length
      = g.food.length := by
  unfold GameLogic.Game.updateFull at h ⊢
  dsimp only at h ⊢
  rw [h, List.foldl_nil]
  exact GameLogic.phase2Fold_food_length supply _ _

/-- C8 witness: the amended statement evaluated over one concrete quiet
tick. -/
theorem c8_no_death_witness :
    (GameLogic.Game.updateFull hyp0 trig0 trig0 sup0 [] glGameCalm).2 = []
    ∧ ((GameLogic.Game.updateFull hyp0 trig0 trig0 sup0 [] glGameCalm).1).food.length
        = glGameCalm.food.length :=
  ⟨by decide, c8_no_death_preserves_food_count hyp0 trig0 trig0 sup0 [] glGameCalm (by decide)⟩

/-- C8 counterexample: a room in its constructed state holds exactly
FOOD_COUNT = 250 pellets, but a tick in which its one (110-segment) snake
dies on the wall drops one pellet per body segment, ending the tick with
360 pellets - the pool size is NOT invariant at the target count after
every tick. -/
theorem c8_death_inflates_food_pool :
    glGameWall.food.length = GameLogic.FOOD_COUNT
    ∧ (GameLogic.Game.updateFull hyp0 trig1 trig0 sup0 [1] glGameWall).2 = [1]
    ∧ (GameLogic.Game.updateFull hyp0 trig1 trig0 sup0 [1] glGameWall).1.food.length = 360
    ∧ ¬(360 = GameLogic.FOOD_COUNT) := by
  refine ⟨by decide, by decide, by decide, by decide⟩

/-- C9: minimum length invariant.  For every sequence of game_logic.js
ticks starting from a room whose players all have at least
PLAYER_MIN_LENGTH body segments, every player still stored after the run
has at least PLAYER_MIN_LENGTH segments: the boost shrink pops the tail
only while the length exceeds the minimum, and all other per-tick body
operations (relaxation, head advance, growth) never shorten the body. -/
theorem c9_min_length_invariant (ticks : List GameLogic.TickEnv)
    (g : GameLogic.Game) (h : GameLogic.LengthsAtLeastMin g.players) :
    GameLogic.LengthsAtLeastMin (GameLogic.Game.runTicks ticks g).players := by
  induction ticks generalizing g with
  | nil => exact h
  | cons e rest ih =>
    show GameLogic.LengthsAtLeastMin
      (GameLogic.Game.runTicks rest
        (GameLogic.Game.updateFull e.hyp e.cosF e.sinF e.supply e.socks g).1).players
    exact ih _ (GameLogic.inv_updateFull GameLogic.length_upd GameLogic.length_eat
      GameLogic.length_cred e.hyp e.cosF e.sinF e.supply e.socks g h)

/-- C9 witness: the invariant evaluated over one concrete tick of a
one-player room whose snake has exactly 10 segments. -/
theorem c9_min_length_witness :
    GameLogic.LengthsAtLeastMin glGameCalm.players
    ∧ GameLogic.LengthsAtLeastMin
        (GameLogic.Game.runTicks [⟨hyp0, trig0, trig0, sup0, []⟩] glGameCalm).players :=
  ⟨by decide, c9_min_length_invariant [⟨hyp0, trig0, trig0, sup0, []⟩] glGameCalm (by decide)⟩

/-- C10: grow() on a snake with a nonempty body appends exactly one new
tail segment whose coordinates equal the previous last segment's (so the
last two segments of the grown body coincide - distance zero - until
relaxation), increases the body length by exactly one, and changes no
other field of the snake. -/
theorem c10_grow_appends_copy_of_tail (sn : GameLogic.Snake) (p : Point)
    (h : sn.body.getLast? = some p) :
    sn.grow.body = sn.body ++ [p]
    ∧ sn.grow.body.length = sn.body.length + 1
    ∧ sn.grow.body.getLast? = some p
    ∧ sn.grow.id = sn.id ∧ sn.grow.username = sn.username
    ∧ sn.grow.balance = sn.balance ∧ sn.grow.size = sn.size
    ∧ sn.grow.speed = sn.speed ∧ sn.grow.angle = sn.angle
    ∧ sn.grow.color = sn.color ∧ sn.grow.isBoosting = sn.isBoosting := by
  unfold GameLogic.Snake.grow
  rw [h]
  refine ⟨rfl, by simp, ?_, rfl, rfl, rfl, rfl, rfl, rfl, rfl, rfl⟩
  simp

/-- C10 witness: grow evaluated on a concrete one-segment snake. -/
theorem c10_grow_witness :
    glColA.body.getLast? = some ⟨0, 0⟩
    ∧ (glColA.grow.body = glColA.body ++ [⟨0, 0⟩]
       ∧ glColA.grow.body.length = glColA.body.length + 1
       ∧ glColA.grow.body.getLast? = some ⟨0, 0⟩
       ∧ glColA.grow.id = glColA.id ∧ glColA.grow.username = glColA.username
       ∧ glColA.grow.balance = glColA.balance ∧ glColA.grow.size = glColA.size
       ∧ glColA.grow.speed = glColA.speed ∧ glColA.grow.angle = glColA.angle
       ∧ glColA.grow.color = glColA.color ∧ glColA.grow.isBoosting = glColA.isBoosting) :=
  ⟨by decide, c10_grow_appends_copy_of_tail glColA ⟨0, 0⟩ (by decide)⟩
